import Mathlib

/-!
Shallow embedding of the RAG pipeline in `digitaltwin_rag.py`,
`embed_simple.py` and `test_rag.py`.

The repository file `digitaltwin_rag.py` contains two complete
implementations concatenated in one module: a first one (lines 1-299,
modelled below with the source names) and a second one (lines 300-520,
modelled with a `2` suffix since Lean does not allow redefinition).

Python-specific behaviour is modelled explicitly:
  * `None`-able values become `Option`;
  * Python truthiness in `a or b` chains is modelled by the `pyOr*`
    helpers (`None`, `""`, `[]`, `{}` and `0` are falsy);
  * a raising backend call is a dedicated constructor of the backend
    behaviour type, and the `try/except` blocks of the source become
    matches on it;
  * floats are carried as rationals: the code never computes with the
    vector entries, it only pads, truncates and passes them through.

Calls to the three external collaborators (embedding model, vector
store, LLM) are recorded in a `CallEv` trace so that the claims of the
form "X is never invoked" are statable.
-/

namespace DigitalTwinRag

/-- Python truthiness of an optional string: `a or b` where the final
result is a string (`None` and `""` are falsy). -/
def pyOrS (a : Option String) (b : String) : String :=
  match a with
  | some s => if s = "" then b else s
  | none => b

/-- Metadata mapping of a chunk, restricted to the keys the code reads
(`content`, `text`, `title`, `section`; `section` is a Lean keyword, so
the field is named `section_`). `none` means the key is absent. -/
structure Metadata where
  content : Option String := none
  text : Option String := none
  title : Option String := none
  section_ : Option String := none
deriving DecidableEq

/-- The empty metadata dict `{}`. -/
def emptyMeta : Metadata := {}

/-- Python truthiness on a metadata dict: `a or b` (an absent value and
the empty dict are falsy). -/
def pyOrM (a : Option Metadata) (b : Metadata) : Metadata :=
  match a with
  | some m => if m = emptyMeta then b else m
  | none => b

/-- Python's `str.strip()`: drop leading and trailing whitespace
(modelled structurally over the character list so it is fully
executable). -/
def pyStrip (s : String) : String :=
  String.mk (((s.data.dropWhile Char.isWhitespace).reverse.dropWhile
    Char.isWhitespace).reverse)

/-- Outcome of `model.encode(text)`: the native embedding vector, or an
exception (`err`). -/
inductive EncodeResult where
  | ok (v : List ℚ)
  | err
deriving DecidableEq

/-- A (possibly unavailable) embedding model: `none` models
`get_embedding_model()` returning `None`. -/
abbrev EncModel := Option (String → EncodeResult)

/-- `embed_text` (digitaltwin_rag.py lines 156-174): encode, then pad
with zeros on the right when the native width is below 1536. The code
has no truncation branch: a native vector of width at least 1536 is
returned unchanged. `none` models the `return None` paths (model
unavailable, or `encode` raised). -/
def embed_text (model : EncModel) (text : String) : Option (List ℚ) :=
  match model with
  | none => none
  | some enc =>
    match enc text with
    | EncodeResult.err => none
    | EncodeResult.ok embedding =>
      if embedding.length < 1536 then
        some (embedding ++ List.replicate (1536 - embedding.length) (0 : ℚ))
      else
        some embedding

/-- One raw hit of the vector store response, before normalization.
The underlying service may deliver hits as plain mappings (`dict`,
accessed with `h.get(...)`) or as attribute-style objects (`attr`,
accessed with `getattr(h, ..., None)`); both carry an optional score
and an optional metadata mapping (`none` = key/attribute absent or
`None`). -/
inductive HitObj where
  | dict (score : Option ℚ) (metadata : Option Metadata)
  | attr (score : Option ℚ) (metadata : Option Metadata)
deriving DecidableEq

/-- The shape of `index.query(...)`'s return value: a mapping that may
hold a `results` and/or a `matches` key (each a list of hits when
present), a bare list of hits, or any other value (`other`). -/
inductive QueryRes where
  | dictWith (results : Option (List HitObj)) (matches_ : Option (List HitObj))
  | list (hits : List HitObj)
  | other
deriving DecidableEq

/-- Behaviour of the vector store backend on this query: it returns a
response, or the call raises. -/
inductive Backend where
  | returns (r : QueryRes)
  | raises

/-- Python truthiness on an optional hit list: `a or b` (an absent
value and the empty list are falsy). -/
def pyOrL (a : Option (List HitObj)) (b : List HitObj) : List HitObj :=
  match a with
  | some l => if l = [] then b else l
  | none => b

/-- `hits = res.get('results') or res.get('matches') or []` followed by
the `isinstance` dispatch of `query_vectors` (digitaltwin_rag.py lines
193-196): a dict is probed for `results` then `matches`, a list is
taken as is, anything else yields `[]`. -/
def extractHits : QueryRes → List HitObj
  | QueryRes.dictWith results matches_ => pyOrL results (pyOrL matches_ [])
  | QueryRes.list hs => hs
  | QueryRes.other => []

/-- A normalized hit `{'score': ..., 'metadata': ..., 'text': ...}` as
built by `query_vectors` (digitaltwin_rag.py line 203). -/
structure NormHit where
  score : Option ℚ := none
  metadata : Metadata := {}
  text : String := ""
deriving DecidableEq

/-- The normalization of one hit (digitaltwin_rag.py lines 200-203).

`score = getattr(h, 'score', None) or (h.get('score') if isinstance(h, dict) else None)`:
for a dict the `getattr` yields `None` and the mapping value is kept as
is; for an attribute-style object the attribute value is kept only when
truthy (a score of `0` falls through to the non-dict branch and becomes
`None`).

`metadata = getattr(h, 'metadata', None) or (h.get('metadata') if isinstance(h, dict) else None) or {}`
collapses an absent or empty metadata to `{}` in both styles.

`text = metadata.get('content') or metadata.get('text') or metadata.get('title', '')`
probes content, then text, then title, with `''` as last default. -/
def normalizeHit (h : HitObj) : NormHit :=
  let score : Option ℚ :=
    match h with
    | HitObj.dict s _ => s
    | HitObj.attr s _ =>
      match s with
      | some q => if q = 0 then none else some q
      | none => none
  let metadata : Metadata :=
    match h with
    | HitObj.dict _ m => pyOrM m emptyMeta
    | HitObj.attr _ m => pyOrM m emptyMeta
  let text : String :=
    pyOrS metadata.content (pyOrS metadata.text (metadata.title.getD ""))
  { score := score, metadata := metadata, text := text }

/-- External calls made by the pipeline, recorded in order: the
embedding model's `encode`, the vector store's `query`, and the LLM
backend's `chat.completions.create`. -/
inductive CallEv where
  | embedCall
  | queryCall
  | generateCall
deriving DecidableEq

/-- `query_vectors` (digitaltwin_rag.py lines 176-207) with its call
trace: returns `[]` when the index handle is `None`, when the query
embedding is `None`, or when the backend call raises (the `except`
branch); otherwise the normalized hits. `embedCall` marks the
`embed_text` invocation, `queryCall` the `index.query` invocation. -/
def query_vectorsT (index : Option Backend) (model : EncModel) (query_text : String) :
    List NormHit × List CallEv :=
  match index with
  | none => ([], [])
  | some backend =>
    match embed_text model query_text with
    | none => ([], [CallEv.embedCall])
    | some _ =>
      match backend with
      | Backend.raises => ([], [CallEv.embedCall, CallEv.queryCall])
      | Backend.returns r =>
        ((extractHits r).map normalizeHit, [CallEv.embedCall, CallEv.queryCall])

/-- The value returned by `query_vectors` (the hit list of
`query_vectorsT`, forgetting the call trace). -/
def query_vectors (index : Option Backend) (model : EncModel) (query_text : String) :
    List NormHit :=
  (query_vectorsT index model query_text).1

/-- Shape of the LLM backend's completion value: an object exposing
`choices[0].message.content` (`obj`, content `none` when the attribute
chain yields `None`), a plain mapping with the same nested keys
(`dictShape`: `none` = no `choices` key, otherwise the list of
`message.content` values, each `none` when the nested key is absent),
or any other value whose `str(...)` is the given string. -/
inductive Completion where
  | obj (content : Option String)
  | dictShape (choices : Option (List (Option String)))
  | otherShape (s : String)

/-- Behaviour of one `client.chat.completions.create` call: it returns
a completion, or raises with message `msg`. -/
inductive GroqBehavior where
  | returns (c : Completion)
  | raises (msg : String)

/-- A (possibly `None`) Groq client, whose backend behaviour may depend
on the prompt it is sent. -/
abbrev Client := Option (String → GroqBehavior)

/-- `generate_response_with_groq` of the first implementation
(digitaltwin_rag.py lines 209-232), with its call trace. All result
extraction happens inside the `try`, so every failure — the backend
raising, `content` being `None` (`.strip()` on `None`), or an empty
`choices` list in the mapping shape (`[0]` out of range) — lands in the
`except` branch, which returns the marker-prefixed message. On success
the text is whitespace-trimmed; a mapping without a `choices` key
yields `''` via the chained `.get` defaults; an unrecognized shape is
stringified. A `None` client returns early without a backend call. -/
def generate_response_with_groq (client : Client) (prompt : String) :
    String × List CallEv :=
  match client with
  | none => ("❌ Groq client not initialized", [])
  | some behavior =>
    match behavior prompt with
    | GroqBehavior.raises msg =>
      ("❌ Error generating response: " ++ msg, [CallEv.generateCall])
    | GroqBehavior.returns c =>
      match c with
      | Completion.obj (some content) => (pyStrip content, [CallEv.generateCall])
      | Completion.obj none =>
        ("❌ Error generating response: NoneType object has no attribute strip",
          [CallEv.generateCall])
      | Completion.dictShape none => ("", [CallEv.generateCall])
      | Completion.dictShape (some []) =>
        ("❌ Error generating response: list index out of range", [CallEv.generateCall])
      | Completion.dictShape (some (c0 :: _)) => (pyStrip (c0.getD ""), [CallEv.generateCall])
      | Completion.otherShape s => (pyStrip s, [CallEv.generateCall])

/-- The context-building loop of the first `rag_query`
(digitaltwin_rag.py lines 244-255): every hit yields one line — there
is no emptiness filter — labelled `"{title}: {text}"` when the resolved
title (metadata `title`, falling back to `section`) is truthy, else the
bare resolved text (`h['text']`, falling back to metadata `content`
then `text`). -/
def contexts_v1 (hits : List NormHit) : List String :=
  hits.map fun h =>
    let meta := h.metadata
    let text := pyOrS (some h.text) (pyOrS meta.content (pyOrS meta.text ""))
    let title := pyOrS meta.title (pyOrS meta.section_ "")
    if title ≠ "" then title ++ ": " ++ text else text

/-- The f-string prompt of the first `rag_query` (digitaltwin_rag.py
lines 259-266). -/
def promptV1 (context_block : String) (question : String) : String :=
  "Based on the information below from my profile, answer the question in first person.\n\nContext:\n"
    ++ context_block
    ++ "\n\nQuestion: "
    ++ question
    ++ "\n\nIf the context does not contain enough detail, say you don't have enough information. Keep the answer concise and professional."

/-- The first `rag_query` (digitaltwin_rag.py lines 234-270) with its
call trace. `if not question` fires only for the exactly-empty string
(Python truthiness); zero hits short-circuit before the prompt; any
non-empty hit list reaches the generation call. -/
def rag_query (index : Option Backend) (groq_client : Client) (model : EncModel)
    (question : String) : String × List CallEv :=
  if question = "" then ("Please provide a question.", [])
  else
    let r := query_vectorsT index model question
    if r.1 = [] then
      ("I couldn't find relevant information in the digital twin.", r.2)
    else
      let context_block := String.intercalate "\n\n" (contexts_v1 r.1)
      let g := generate_response_with_groq groq_client (promptV1 context_block question)
      (g.1, r.2 ++ g.2)

/-- One result object of the second implementation: the Upstash SDK
delivers attribute-style objects, read with `result.score` and
`result.metadata` (digitaltwin_rag.py lines 446-449). -/
structure HitV2 where
  score : Option ℚ := none
  metadata : Option Metadata := none
deriving DecidableEq

/-- Behaviour of the vector store backend in the second implementation:
`index.query(data=..., ...)` returns a list of result objects, or
raises. -/
inductive Backend2 where
  | returns (rs : List HitV2)
  | raises

/-- The second `query_vectors` (digitaltwin_rag.py lines 395-406) with
its call trace: it returns the raw results, or `None` when the backend
call raises. -/
def query_vectors2T (index : Backend2) : Option (List HitV2) × List CallEv :=
  match index with
  | Backend2.raises => (none, [CallEv.queryCall])
  | Backend2.returns rs => (some rs, [CallEv.queryCall])

/-- The `top_docs` loop of the second `rag_query` (digitaltwin_rag.py
lines 444-453), assuming every score is formattable (the `none`-score
exception path is handled in `rag_query2`): metadata defaults to `{}`
when absent or empty, the title defaults to `'Information'` when the
key is absent, and only results with truthy `content` contribute a
line — every surviving line is `"{title}: {content}"`, even for an
empty title. -/
def top_docs2 (results : List HitV2) : List String :=
  results.filterMap fun result =>
    let metadata := pyOrM result.metadata emptyMeta
    let title := metadata.title.getD "Information"
    let content := metadata.content.getD ""
    if content ≠ "" then some (title ++ ": " ++ content) else none

/-- The f-string prompt of the second `rag_query` (digitaltwin_rag.py
lines 462-470). -/
def promptV2 (context : String) (question : String) : String :=
  "Based on the following information about yourself, answer the question.\nSpeak in first person as if you are describing your own background.\n\nYour Information:\n"
    ++ context
    ++ "\n\nQuestion: "
    ++ question
    ++ "\n\nProvide a helpful, professional response:"

/-- `generate_response_with_groq` of the second implementation
(digitaltwin_rag.py lines 408-430): the only supported completion shape
is the attribute-style `completion.choices[0].message.content`; any
other shape raises inside the `try` (attribute access on a mapping or
on an arbitrary value) and is converted to the marker-prefixed message,
as is a raising backend call. There is no `None`-client guard: the
attribute access on `None` also raises inside the `try`. -/
def generate_response_with_groq2 (client : Client) (prompt : String) :
    String × List CallEv :=
  match client with
  | none => (" Error generating response: NoneType object has no attribute chat", [])
  | some behavior =>
    match behavior prompt with
    | GroqBehavior.raises msg =>
      (" Error generating response: " ++ msg, [CallEv.generateCall])
    | GroqBehavior.returns c =>
      match c with
      | Completion.obj (some content) => (pyStrip content, [CallEv.generateCall])
      | Completion.obj none =>
        (" Error generating response: NoneType object has no attribute strip",
          [CallEv.generateCall])
      | Completion.dictShape _ =>
        (" Error generating response: dict object has no attribute choices",
          [CallEv.generateCall])
      | Completion.otherShape _ =>
        (" Error generating response: object has no attribute choices",
          [CallEv.generateCall])

/-- The second `rag_query` (digitaltwin_rag.py lines 432-476) with its
call trace. `if not results or len(results) == 0` catches both the
`None` from a failed query and an empty result list. The retrieval
printout `f"... (Relevance: {score:.3f})"` raises a `TypeError` when a
result's score is `None`; the surrounding `try` converts that to the
`" Error during query: ..."` answer before generation is reached. An
empty `top_docs` short-circuits with a canned answer; otherwise
generation is called on the assembled prompt. -/
def rag_query2 (index : Backend2) (groq_client : Client) (question : String) :
    String × List CallEv :=
  let r := query_vectors2T index
  match r.1 with
  | none => ("I don't have specific information about that topic.", r.2)
  | some results =>
    if results = [] then
      ("I don't have specific information about that topic.", r.2)
    else if results.any fun res => res.score.isNone then
      (" Error during query: unsupported format string passed to NoneType.__format__",
        r.2)
    else
      let docs := top_docs2 results
      if docs = [] then
        ("I found some information but couldn't extract details.", r.2)
      else
        let prompt := promptV2 (String.intercalate "\n\n" docs) question
        let g := generate_response_with_groq2 groq_client prompt
        (g.1, r.2 ++ g.2)

/-- `create_embedding` (embed_simple.py lines 58-64): pad with zeros to
1536 when the native width is below 1536, then take the first 1536
values (`emb[:1536]`) — so an over-wide native vector is truncated. -/
def create_embedding (emb : List ℚ) : List ℚ :=
  (if emb.length < 1536 then emb ++ List.replicate (1536 - emb.length) (0 : ℚ) else emb).take 1536

/-- The inline query embedding of `query_digital_twin` (test_rag.py
lines 36-42): identical pad-then-slice scheme on the encoded
question. -/
def query_digital_twin_embedding (query_embedding : List ℚ) : List ℚ :=
  (if query_embedding.length < 1536 then
      query_embedding ++ List.replicate (1536 - query_embedding.length) (0 : ℚ)
    else query_embedding).take 1536

/-! Concrete fixtures used by the counterexamples and witnesses. -/

/-- A working embedding model of native width 3. -/
def encOk : EncModel := some fun _ => EncodeResult.ok [0, 0, 0]

/-- A Groq client whose backend always answers `"answer"`. -/
def okClient : Client := some fun _ => GroqBehavior.returns (Completion.obj (some "answer"))

/-- A mock Groq client that echoes the prompt it receives. -/
def echoClient : Client := some fun p => GroqBehavior.returns (Completion.obj (some p))

/-- The hits of the assembly example, first-implementation form:
`[{title:"A",text:""}, {title:"B",text:"x"}, {title:"",text:"y"}]`. -/
def exHitsV1 : List NormHit :=
  [ { metadata := { title := some "A" }, text := "" },
    { metadata := { title := some "B" }, text := "x" },
    { metadata := {}, text := "y" } ]

/-- The same assembly example in second-implementation form (scores
present so the retrieval printout does not raise). -/
def exHitsV2 : List HitV2 :=
  [ { score := some 1, metadata := some { title := some "A", content := some "" } },
    { score := some 1, metadata := some { title := some "B", content := some "x" } },
    { score := some 1, metadata := some { title := some "", content := some "y" } } ]

/-- The indexed chunk of the end-to-end scenario, as the vector store
hands it back: metadata `{title:"Skills", content:"Python, Go"}`. -/
def skillsHit : HitObj :=
  HitObj.dict (some (9 / 10)) (some { title := some "Skills", content := some "Python, Go" })

/-- Substring containment, stated as an explicit decomposition. -/
def strContainsSub (s pat : String) : Prop := ∃ a b : String, s = a ++ pat ++ b

/-- A second-implementation result with a present score, a title and
empty content. -/
def emptyContentHit : HitV2 :=
  { score := some 1, metadata := some { title := some "A", content := some "" } }

/-! ## Theorems -/

/-- C1 counterexample: with a native encoder width of 2048 the claim
fails — `embed_text` returns the 2048-wide vector unchanged, not a
vector of length 1536 (the code has no truncation branch). -/
theorem C1_counterexample :
    (embed_text (some fun _ => EncodeResult.ok (List.replicate 2048 (0 : ℚ))) "q").map
        List.length ≠ some 1536 := by
  have h2048 : (List.replicate 2048 (0 : ℚ)).length = 2048 := List.length_replicate 2048 0
  simp only [embed_text, h2048]
  norm_num

/-- C1 (amended): whenever the encoder yields a native vector `e`,
`embed_text` zero-pads it on the right to exactly 1536 when its width
is below 1536, and returns it unchanged when its width is 1536 or more
— so the result has length `max e.length 1536`, which is 1536 exactly
when the native width is at most 1536; over-wide vectors are not
truncated. -/
theorem C1_embed_text_pads_below_keeps_above (enc : String → EncodeResult) (text : String)
    (e : List ℚ) (h : enc text = EncodeResult.ok e) :
    embed_text (some enc) text =
      some (if e.length < 1536 then e ++ List.replicate (1536 - e.length) (0 : ℚ) else e) ∧
    (embed_text (some enc) text).map List.length = some (max e.length 1536) := by
  constructor
  · simp only [embed_text, h]
    split <;> rfl
  · by_cases hl : e.length < 1536 <;> simp [embed_text, h, hl] <;> omega

/-- Witness for C1: a native width of 2 is padded to 1536. -/
theorem C1_embed_text_pads_below_keeps_above_witness :
    ((fun _ : String => EncodeResult.ok ([0, 0] : List ℚ)) "t" = EncodeResult.ok [0, 0]) ∧
    (embed_text (some fun _ : String => EncodeResult.ok ([0, 0] : List ℚ)) "t" =
        some (if ([0, 0] : List ℚ).length < 1536 then
            ([0, 0] : List ℚ) ++ List.replicate (1536 - ([0, 0] : List ℚ).length) (0 : ℚ)
          else [0, 0]) ∧
      (embed_text (some fun _ : String => EncodeResult.ok ([0, 0] : List ℚ)) "t").map
          List.length = some (max ([0, 0] : List ℚ).length 1536)) :=
  ⟨rfl, C1_embed_text_pads_below_keeps_above _ "t" [0, 0] rfl⟩

/-- C2 counterexample: on the hits `[{title:"A",text:""},
{title:"B",text:"x"}, {title:"",text:"y"}]`, neither assembly step
produces the two lines `"B: x"` and `"y"`: the first implementation
keeps the empty-text hit (line `"A: "`), the second drops it but
labels the title-less hit `": y"`. -/
theorem C2_counterexample :
    contexts_v1 exHitsV1 ≠ ["B: x", "y"] ∧ top_docs2 exHitsV2 ≠ ["B: x", "y"] := by
  decide

/-- C2 (amended): the first implementation's context assembly keeps
every hit — one line per hit, in input order, with no emptiness filter
— labelling `"{title}: {text}"` when a title is present and bare text
otherwise, so the example hits yield the three lines `"A: "`, `"B: x"`
and `"y"`; the second implementation drops hits with empty content but
labels every surviving line `"{title}: {content}"` even when the title
is empty, yielding `"B: x"` and `": y"` on the example. -/
theorem C2_assembly_keeps_empty_hits :
    (∀ hits : List NormHit, (contexts_v1 hits).length = hits.length) ∧
    contexts_v1 exHitsV1 = ["A: ", "B: x", "y"] ∧
    top_docs2 exHitsV2 = ["B: x", ": y"] := by
  refine ⟨fun hits => ?_, by decide, by decide⟩
  simp [contexts_v1]

/-- C4 counterexample: a mapping-style hit and an attribute-style hit
carrying the same data (score `0`, metadata `{content:"x"}`) do not
normalize to the same hit: the attribute branch drops the falsy score
`0` to `None`, the mapping branch keeps it. -/
theorem C4_counterexample :
    query_vectors (some (Backend.returns (QueryRes.list
        [HitObj.dict (some 0) (some { content := some "x" })]))) encOk "q" ≠
      query_vectors (some (Backend.returns (QueryRes.list
        [HitObj.attr (some 0) (some { content := some "x" })]))) encOk "q" := by
  decide

/-- C4 (amended): a mapping with a `results` key, a mapping with a
`matches` key and a bare sequence carrying the same hit list normalize
to the same hits, and a mapping-style hit and an attribute-style hit
with the same score and metadata normalize identically provided the
score is not `0` (Python truthiness turns an attribute-style score of
`0` into `None` while the mapping form keeps it); display text is
derived by probing metadata `content`, then `text`, then `title`, and
finally the empty string. -/
theorem C4_normalization_equivalence (hs : List HitObj) (s : Option ℚ) (m : Option Metadata)
    (model : EncModel) (q : String) (hscore : s ≠ some 0) :
    query_vectors (some (Backend.returns (QueryRes.dictWith (some hs) none))) model q =
      query_vectors (some (Backend.returns (QueryRes.list hs))) model q ∧
    query_vectors (some (Backend.returns (QueryRes.dictWith none (some hs)))) model q =
      query_vectors (some (Backend.returns (QueryRes.list hs))) model q ∧
    normalizeHit (HitObj.dict s m) = normalizeHit (HitObj.attr s m) ∧
    (normalizeHit (HitObj.dict none
        (some { content := some "c", text := some "t", title := some "ti" }))).text = "c" ∧
    (normalizeHit (HitObj.dict none
        (some { text := some "t", title := some "ti" }))).text = "t" ∧
    (normalizeHit (HitObj.dict none (some { title := some "ti" }))).text = "ti" ∧
    (normalizeHit (HitObj.dict none (some {}))).text = "" := by
  have hex1 : extractHits (QueryRes.dictWith (some hs) none) = hs := by
    cases hs <;> simp [extractHits, pyOrL]
  have hex2 : extractHits (QueryRes.dictWith none (some hs)) = hs := by
    cases hs <;> simp [extractHits, pyOrL]
  refine ⟨?_, ?_, ?_, by decide, by decide, by decide, by decide⟩
  · simp only [query_vectors, query_vectorsT]
    cases embed_text model q
    · rfl
    · rw [hex1]; rfl
  · simp only [query_vectors, query_vectorsT]
    cases embed_text model q
    · rfl
    · rw [hex2]; rfl
  · cases s with
    | none => rfl
    | some q' =>
      have hq : ¬ q' = 0 := fun h => hscore (by rw [h])
      simp [normalizeHit, hq]

/-- Witness for C4: instantiated at a one-element hit list with score
`1` and empty metadata. -/
theorem C4_normalization_equivalence_witness :
    (some (1 : ℚ) ≠ some 0) ∧
    (query_vectors (some (Backend.returns (QueryRes.dictWith
          (some [HitObj.dict (some 1) none]) none))) encOk "q" =
        query_vectors (some (Backend.returns
          (QueryRes.list [HitObj.dict (some 1) none]))) encOk "q" ∧
      query_vectors (some (Backend.returns (QueryRes.dictWith none
          (some [HitObj.dict (some 1) none])))) encOk "q" =
        query_vectors (some (Backend.returns
          (QueryRes.list [HitObj.dict (some 1) none]))) encOk "q" ∧
      normalizeHit (HitObj.dict (some 1) none) = normalizeHit (HitObj.attr (some 1) none) ∧
      (normalizeHit (HitObj.dict none
          (some { content := some "c", text := some "t", title := some "ti" }))).text = "c" ∧
      (normalizeHit (HitObj.dict none
          (some { text := some "t", title := some "ti" }))).text = "t" ∧
      (normalizeHit (HitObj.dict none (some { title := some "ti" }))).text = "ti" ∧
      (normalizeHit (HitObj.dict none (some {}))).text = "") :=
  ⟨by decide,
    C4_normalization_equivalence [HitObj.dict (some 1) none] (some 1) none encOk "q"
      (by decide)⟩

/-- C5 counterexample: the whitespace-only question `" "` is truthy in
Python, so `rag_query` does not return the validation answer and does
invoke retrieval — both the embedding and the vector-store query are
called. -/
theorem C5_counterexample :
    (rag_query (some (Backend.returns (QueryRes.list []))) okClient encOk " ").1 ≠
        "Please provide a question." ∧
    CallEv.embedCall ∈ (rag_query (some (Backend.returns (QueryRes.list []))) okClient encOk " ").2 ∧
    CallEv.queryCall ∈ (rag_query (some (Backend.returns (QueryRes.list []))) okClient encOk " ").2 := by
  decide

/-- C5 (amended): only for the exactly-empty question does `rag_query`
return the terminal validation answer `"Please provide a question."`
with an empty call trace — no embedding, no vector-store query and no
generation; a whitespace-only question proceeds to retrieval. -/
theorem C5_empty_question_short_circuits (index : Option Backend) (client : Client)
    (model : EncModel) :
    rag_query index client model "" = ("Please provide a question.", []) := by
  rfl

/-- C8: `query_vectors` degrades every failure to the empty hit list
and, being a total function over every modelled backend outcome, never
raises: a raising backend call, a response that is neither a mapping
with a `results`/`matches` key nor a sequence, a mapping with neither
key, and a failed query embedding all yield `[]`. -/
theorem C8_query_vectors_errors_degrade_to_empty :
    (∀ (model : EncModel) (text : String),
      query_vectors (some Backend.raises) model text = []) ∧
    (∀ (model : EncModel) (text : String),
      query_vectors (some (Backend.returns QueryRes.other)) model text = []) ∧
    (∀ (model : EncModel) (text : String),
      query_vectors (some (Backend.returns (QueryRes.dictWith none none))) model text = []) ∧
    (∀ (backend : Backend) (text : String), query_vectors (some backend) none text = []) := by
  refine ⟨fun model text => ?_, fun model text => ?_, fun model text => ?_,
    fun backend text => rfl⟩ <;>
    · simp only [query_vectors, query_vectorsT]
      cases embed_text model text <;> simp [extractHits, pyOrL]

/-- C10: both ingestion-side embedders return exactly 1536 values for
every native width — padding with zeros below 1536 and truncating to
the first 1536 values above — and they are the same function. -/
theorem C10_ingestion_embedders_fix_dimension (emb : List ℚ) :
    (create_embedding emb).length = 1536 ∧
    (query_digital_twin_embedding emb).length = 1536 ∧
    create_embedding emb =
      (if emb.length < 1536 then emb ++ List.replicate (1536 - emb.length) (0 : ℚ)
        else emb.take 1536) ∧
    query_digital_twin_embedding emb = create_embedding emb := by
  have hq : query_digital_twin_embedding emb = create_embedding emb := rfl
  have heq : create_embedding emb =
      (if emb.length < 1536 then emb ++ List.replicate (1536 - emb.length) (0 : ℚ)
        else emb.take 1536) := by
    by_cases hl : emb.length < 1536
    · have hlen : (emb ++ List.replicate (1536 - emb.length) (0 : ℚ)).length ≤ 1536 := by
        simp; omega
      simp only [create_embedding, if_pos hl]
      exact List.take_of_length_le hlen
    · simp [create_embedding, if_neg hl]
  have hlen : (create_embedding emb).length = 1536 := by
    rw [heq]
    by_cases hl : emb.length < 1536 <;> simp [hl] <;> omega
  exact ⟨hlen, by rw [hq, hlen], heq, hq⟩

/-- Retrieval alone never produces a generation call: the trace of
`query_vectorsT` holds at most the embedding and the store query. -/
theorem generateCall_notin_retrieval_trace (index : Option Backend) (model : EncModel)
    (q : String) : CallEv.generateCall ∉ (query_vectorsT index model q).2 := by
  cases index with
  | none => simp [query_vectorsT]
  | some backend =>
    cases h : embed_text model q with
    | none => simp [query_vectorsT, h]
    | some v => cases backend <;> simp [query_vectorsT, h]

/-- C3 counterexample: the first pipeline does not short-circuit on a
context of empty lines — for a retrieval that returns one hit with
empty resolved text, `rag_query` still calls the generation backend
and returns its answer rather than a canned "not found" one. -/
theorem C3_counterexample :
    (rag_query (some (Backend.returns (QueryRes.list [HitObj.dict (some 1) none]))) okClient
        encOk "question").1 = "answer" ∧
    CallEv.generateCall ∈
      (rag_query (some (Backend.returns (QueryRes.list [HitObj.dict (some 1) none]))) okClient
        encOk "question").2 := by
  decide

/-- C3 (amended): the second pipeline short-circuits as claimed — when
every retrieved result has empty resolved content (and a present
score, so the retrieval printout does not raise), it returns the
canned answer `"I found some information but couldn't extract
details."` and never calls the generation backend; the first pipeline
(see the counterexample) keeps empty-text hits and calls generation
anyway. -/
theorem C3_v2_empty_content_short_circuits (rs : List HitV2) (client : Client) (q : String)
    (h1 : rs ≠ [])
    (h2 : ∀ r ∈ rs, ¬ r.score.isNone)
    (h3 : ∀ r ∈ rs, (pyOrM r.metadata emptyMeta).content.getD "" = "") :
    (rag_query2 (Backend2.returns rs) client q).1 =
      "I found some information but couldn't extract details." ∧
    CallEv.generateCall ∉ (rag_query2 (Backend2.returns rs) client q).2 := by
  have hany : (rs.any fun res => res.score.isNone) = false := by
    simp only [List.any_eq_false]
    exact h2
  have hdocs : top_docs2 rs = [] := by
    simp only [top_docs2, List.filterMap_eq_nil_iff]
    intro r hr
    simp [h3 r hr]
  constructor <;> simp [rag_query2, query_vectors2T, h1, hany, hdocs]

/-- Witness for C3: one result, score present, title `"A"`, empty
content. -/
theorem C3_v2_empty_content_short_circuits_witness :
    ([emptyContentHit] ≠ ([] : List HitV2)) ∧
    (∀ r ∈ [emptyContentHit], ¬ r.score.isNone) ∧
    (∀ r ∈ [emptyContentHit], (pyOrM r.metadata emptyMeta).content.getD "" = "") ∧
    ((rag_query2 (Backend2.returns [emptyContentHit]) okClient "q").1 =
      "I found some information but couldn't extract details." ∧
    CallEv.generateCall ∉ (rag_query2 (Backend2.returns [emptyContentHit]) okClient "q").2) :=
  ⟨by decide, by decide, by decide,
    C3_v2_empty_content_short_circuits [emptyContentHit] okClient "q"
      (by decide) (by decide) (by decide)⟩

/-- C6: in both pipelines, a retrieval that yields zero hits produces
the canned "not found"-style terminal answer and the generation
backend is never called: the first pipeline returns `"I couldn't find
relevant information in the digital twin."` whenever `query_vectors`
comes back empty on a non-empty question, and the second returns `"I
don't have specific information about that topic."` both when the
query raises (results `None`) and when it returns no results. -/
theorem C6_zero_hits_skip_generation (index : Option Backend) (client : Client)
    (model : EncModel) (q : String) (hq : q ≠ "")
    (hz : (query_vectorsT index model q).1 = []) :
    (rag_query index client model q).1 =
      "I couldn't find relevant information in the digital twin." ∧
    CallEv.generateCall ∉ (rag_query index client model q).2 ∧
    (∀ (client2 : Client) (q2 : String),
      (rag_query2 (Backend2.returns []) client2 q2).1 =
        "I don't have specific information about that topic." ∧
      CallEv.generateCall ∉ (rag_query2 (Backend2.returns []) client2 q2).2 ∧
      (rag_query2 Backend2.raises client2 q2).1 =
        "I don't have specific information about that topic." ∧
      CallEv.generateCall ∉ (rag_query2 Backend2.raises client2 q2).2) := by
  have hv2r : ∀ (client2 : Client) (q2 : String),
      rag_query2 (Backend2.returns []) client2 q2 =
        ("I don't have specific information about that topic.", [CallEv.queryCall]) :=
    fun _ _ => rfl
  have hv2n : ∀ (client2 : Client) (q2 : String),
      rag_query2 Backend2.raises client2 q2 =
        ("I don't have specific information about that topic.", [CallEv.queryCall]) :=
    fun _ _ => rfl
  refine ⟨?_, ?_, fun client2 q2 => ?_⟩
  · simp [rag_query, hq, hz]
  · simp [rag_query, hq, hz]
    exact generateCall_notin_retrieval_trace index model q
  · rw [hv2r client2 q2, hv2n client2 q2]
    exact ⟨rfl, by decide, rfl, by decide⟩

/-- Witness for C6: a backend that returns a bare empty result list on
the question "q". -/
theorem C6_zero_hits_skip_generation_witness :
    (("q" : String) ≠ "") ∧
    ((query_vectorsT (some (Backend.returns (QueryRes.list []))) encOk "q").1 = []) ∧
    ((rag_query (some (Backend.returns (QueryRes.list []))) okClient encOk "q").1 =
      "I couldn't find relevant information in the digital twin." ∧
    CallEv.generateCall ∉
      (rag_query (some (Backend.returns (QueryRes.list []))) okClient encOk "q").2 ∧
    (∀ (client2 : Client) (q2 : String),
      (rag_query2 (Backend2.returns []) client2 q2).1 =
        "I don't have specific information about that topic." ∧
      CallEv.generateCall ∉ (rag_query2 (Backend2.returns []) client2 q2).2 ∧
      (rag_query2 Backend2.raises client2 q2).1 =
        "I don't have specific information about that topic." ∧
      CallEv.generateCall ∉ (rag_query2 Backend2.raises client2 q2).2)) :=
  ⟨by decide, by decide,
    C6_zero_hits_skip_generation (some (Backend.returns (QueryRes.list []))) okClient encOk "q"
      (by decide) (by decide)⟩

/-- C7 counterexample: the same mapping-shaped completion
`{'choices': [{'message': {'content': 'hi '}}]}` is handled by the
first `generate_response_with_groq` (trimmed content `"hi"`) but not by
the second definition, which turns the attribute access on the mapping
into its marker-prefixed error string instead of the trimmed
content — so the claim, read over both cited definitions, fails. -/
theorem C7_counterexample :
    (generate_response_with_groq
        (some fun _ => GroqBehavior.returns (Completion.dictShape (some [some "hi "]))) "p").1 =
      "hi" ∧
    (generate_response_with_groq2
        (some fun _ => GroqBehavior.returns (Completion.dictShape (some [some "hi "]))) "p").1 ≠
      "hi" ∧
    (generate_response_with_groq2
        (some fun _ => GroqBehavior.returns (Completion.dictShape (some [some "hi "]))) "p").1 =
      " Error generating response: dict object has no attribute choices" := by
  decide

/-- C7 (amended): both definitions convert every backend exception into
a marker-prefixed string (`"❌ Error generating response: "` resp.
`" Error generating response: "`) and, being total functions of the
modelled behaviour, never propagate; on success the first definition
trims the text and tolerates the attribute shape, the mapping shape and
(by stringifying) any other shape, while the second tolerates only the
attribute shape and converts a mapping-shaped completion into its
marker-prefixed error string. -/
theorem C7_generate_catches_all (prompt msg content s0 : String) :
    (generate_response_with_groq (some fun _ => GroqBehavior.raises msg) prompt).1 =
      "❌ Error generating response: " ++ msg ∧
    (generate_response_with_groq2 (some fun _ => GroqBehavior.raises msg) prompt).1 =
      " Error generating response: " ++ msg ∧
    (generate_response_with_groq
        (some fun _ => GroqBehavior.returns (Completion.obj (some content))) prompt).1 =
      pyStrip content ∧
    (generate_response_with_groq
        (some fun _ => GroqBehavior.returns (Completion.dictShape (some [some content])))
        prompt).1 = pyStrip content ∧
    (generate_response_with_groq
        (some fun _ => GroqBehavior.returns (Completion.otherShape s0)) prompt).1 =
      pyStrip s0 ∧
    (generate_response_with_groq2
        (some fun _ => GroqBehavior.returns (Completion.obj (some content))) prompt).1 =
      pyStrip content ∧
    (generate_response_with_groq2
        (some fun _ => GroqBehavior.returns (Completion.dictShape (some [some content])))
        prompt).1 =
      " Error generating response: dict object has no attribute choices" := by
  exact ⟨rfl, rfl, rfl, rfl, rfl, rfl, rfl⟩

set_option maxRecDepth 8192 in
/-- C9: the user prompt of the first pipeline embeds the context block
verbatim, followed by the literal question, followed by the
insufficient-information instruction; in the end-to-end scenario with
the chunk `{id:"c1", title:"Skills", content:"Python, Go"}` retrieved
for `"What are your skills?"` and an echoing mock generator, the
answer (the echoed prompt) contains the literal substrings
`"Skills: Python, Go"` and `"What are your skills?"`. -/
theorem C9_prompt_embeds_context_then_question :
    (∀ context_block question : String, ∃ pre mid suf : String,
      promptV1 context_block question = pre ++ context_block ++ mid ++ question ++ suf ∧
      strContainsSub suf "say you don't have enough information") ∧
    strContainsSub
      (rag_query (some (Backend.returns (QueryRes.list [skillsHit]))) echoClient encOk
        "What are your skills?").1 "Skills: Python, Go" ∧
    strContainsSub
      (rag_query (some (Backend.returns (QueryRes.list [skillsHit]))) echoClient encOk
        "What are your skills?").1 "What are your skills?" := by
  refine ⟨fun cb q =>
    ⟨"Based on the information below from my profile, answer the question in first person.\n\nContext:\n",
      "\n\nQuestion: ",
      "\n\nIf the context does not contain enough detail, say you don't have enough information. Keep the answer concise and professional.",
      rfl,
      "\n\nIf the context does not contain enough detail, ",
      ". Keep the answer concise and professional.", by decide⟩, ?_, ?_⟩
  · exact ⟨"Based on the information below from my profile, answer the question in first person.\n\nContext:\n",
      "\n\nQuestion: What are your skills?\n\nIf the context does not contain enough detail, say you don't have enough information. Keep the answer concise and professional.",
      by decide⟩
  · exact ⟨"Based on the information below from my profile, answer the question in first person.\n\nContext:\nSkills: Python, Go\n\nQuestion: ",
      "\n\nIf the context does not contain enough detail, say you don't have enough information. Keep the answer concise and professional.",
      by decide⟩

end DigitalTwinRag
